import Mathlib

/-!
Verification of the Drk_Ejecutable launcher core (src/src-tauri/src/minecraft).

Shallow embedding conventions:
  * Rust `String`/`&str` values are modelled as `Str := List Char`; string
    literals appear as `"...".data`.  All string operations (split, replace,
    lowercase, substring search) are defined structurally below so that every
    definition is executable and kernel-reducible.
  * The current platform (`std::env::consts::OS` / `ARCH`, `cfg!(windows)`)
    is passed explicitly as parameters (`os`, `arch`, `win`).
  * Filesystem and network effects are made explicit: the contents of the one
    file a function touches become an `Option Content` value, and network
    responses become explicit outcome lists / functions supplied as input.
-/

abbrev Str := List Char

/-- Rust `str::to_lowercase` (ASCII range, as used by the sources). -/
def toLowerStr (s : Str) : Str := s.map Char.toLower

/-- Rust `str::split(c)` for a single-character separator: splitting the empty
string yields `[""]`, and separators at the ends yield empty fragments. -/
def splitChar (c : Char) : Str → List Str
  | [] => [[]]
  | x :: xs =>
    match splitChar c xs with
    | [] => [[]]
    | h :: t => if x == c then [] :: h :: t else (x :: h) :: t

/-- Rust `str::contains(pat)` — substring search; the empty pattern matches. -/
def strContains : Str → Str → Bool
  | _, [] => true
  | [], _ :: _ => false
  | x :: xs, p :: ps => List.isPrefixOf (p :: ps) (x :: xs) || strContains xs (p :: ps)

/-- Rust `str::starts_with(pat)`. -/
def strStartsWith (s pat : Str) : Bool := List.isPrefixOf pat s

/-- Fuel-driven worker for `replaceSub`; the fuel is the length of the
subject string, which bounds the number of recursion steps. -/
def replaceSubGo (pat rep : Str) : Nat → Str → Str
  | 0, s => s
  | _ + 1, [] => []
  | n + 1, x :: xs =>
    if List.isPrefixOf pat (x :: xs) then
      rep ++ replaceSubGo pat rep n (List.drop pat.length (x :: xs))
    else
      x :: replaceSubGo pat rep n xs

/-- Rust `str::replace(pat, rep)`: replace all non-overlapping occurrences,
left to right.  (The sources only call it with non-empty patterns; an empty
pattern is mapped to the identity here.) -/
def replaceSub (s pat rep : Str) : Str :=
  if pat.isEmpty then s else replaceSubGo pat rep s.length s

/-- Decimal digits of a natural number (worker with fuel). -/
def natToStrGo : Nat → Nat → Str
  | 0, _ => []
  | fuel + 1, n =>
    if n < 10 then [Char.ofNat (48 + n)]
    else natToStrGo fuel (n / 10) ++ [Char.ofNat (48 + n % 10)]

/-- Rust `format!("{}", n)` for an unsigned integer. -/
def natToStr (n : Nat) : Str := natToStrGo (n + 1) n

/-- Rust `str::parse::<u32>()`: optional leading `+`, one or more decimal
digits, value below `2^32`; anything else is `none` (an `Err`). -/
def parseU32 (s : Str) : Option Nat :=
  let core : Str → Option Nat := fun t =>
    if t.isEmpty then none
    else
      t.foldl
        (fun acc c =>
          match acc with
          | some n => if c.isDigit then some (n * 10 + (c.toNat - 48)) else none
          | none => none)
        (some 0)
  let r := match s with
    | '+' :: rest => core rest
    | _ => core s
  match r with
  | some n => if n < 2 ^ 32 then some n else none
  | none => none

/- ====================================================================
   src/src-tauri/src/minecraft/java.rs
   ==================================================================== -/

/-- `java.rs::get_required_java_version`: pure lookup of the required Java
major version from a Minecraft version identifier.  Mirrors the Rust verbatim:
split on `.`; fewer than two parts falls back to 8; `parse().unwrap_or(0)`
for the minor and patch numbers. -/
def get_required_java_version (mcVersion : Str) : Nat :=
  match splitChar '.' mcVersion with
  | _ :: p1 :: rest =>
    let minor := (parseU32 p1).getD 0
    if minor ≤ 16 then 8
    else if minor ≤ 17 then 16
    else if minor ≤ 20 then
      if minor == 20 && rest.length > 0 then
        match rest with
        | p2 :: _ => if (parseU32 p2).getD 0 ≥ 5 then 21 else 17
        | [] => 17
      else 17
    else 21
  | _ => 8

/-- Outcome of `java.rs::get_java_path_for_major`, abstracting the returned
`PathBuf`: the bare system `java`, the embedded `<root>/java/<major>/bin/java`,
the embedded `javaw.exe` alternative on Windows, or the not-found error. -/
inductive JavaLookup where
  | system
  | embedded
  | embeddedJavaw
  | notFound (msg : Str)
deriving DecidableEq, Repr

/-- `java.rs::get_java_path_for_major`, with the environment made explicit:
`systemJavaVersion` is the result of `get_system_java_version("java")`
(`none` for an `Err`), `embeddedExists` / `embeddedJavawExists` report whether
the embedded `bin/java(.exe)` / `bin/javaw.exe` files exist on disk, and `win`
is `cfg!(target_os = "windows")`. -/
def get_java_path_for_major (systemJavaVersion : Option Nat)
    (embeddedExists embeddedJavawExists win : Bool)
    (requiredVersion : Nat) : JavaLookup :=
  if systemJavaVersion = some requiredVersion then
    .system
  else if embeddedExists then
    .embedded
  else if win && embeddedJavawExists then
    .embeddedJavaw
  else
    .notFound (("No suitable Java ".data) ++ natToStr requiredVersion ++ (" found".data))

/- ====================================================================
   Theorems for C7 and C8
   ==================================================================== -/

/-- C7: `get_required_java_version` maps "1.16.5" to 8, "1.17" to 16,
"1.20.4" to 17, "1.20.5" to 21 and "1.21" to 21. -/
theorem c7_required_java_table :
    get_required_java_version ("1.16.5".data) = 8 ∧
    get_required_java_version ("1.17".data) = 16 ∧
    get_required_java_version ("1.20.4".data) = 17 ∧
    get_required_java_version ("1.20.5".data) = 21 ∧
    get_required_java_version ("1.21".data) = 21 := by
  decide

/-- C8: `get_java_path_for_major` returns the system runtime exactly when the
detected system major equals the requested major (never a newer one);
otherwise it falls back to the embedded per-major install when one exists on
disk (`bin/java`, or `bin/javaw.exe` on Windows), and otherwise reports the
not-found error. -/
theorem c8_java_lookup_policy (systemJavaVersion : Option Nat)
    (embeddedExists embeddedJavawExists win : Bool) (requiredVersion : Nat) :
    (get_java_path_for_major systemJavaVersion embeddedExists embeddedJavawExists
        win requiredVersion = .system ↔ systemJavaVersion = some requiredVersion) ∧
    (systemJavaVersion ≠ some requiredVersion → embeddedExists = true →
      get_java_path_for_major systemJavaVersion embeddedExists embeddedJavawExists
        win requiredVersion = .embedded) ∧
    (systemJavaVersion ≠ some requiredVersion → embeddedExists = false →
      (win && embeddedJavawExists) = true →
      get_java_path_for_major systemJavaVersion embeddedExists embeddedJavawExists
        win requiredVersion = .embeddedJavaw) ∧
    (systemJavaVersion ≠ some requiredVersion → embeddedExists = false →
      (win && embeddedJavawExists) = false →
      get_java_path_for_major systemJavaVersion embeddedExists embeddedJavawExists
        win requiredVersion =
        .notFound (("No suitable Java ".data) ++ natToStr requiredVersion ++ (" found".data))) := by
  refine ⟨?_, ?_, ?_, ?_⟩
  · constructor
    · intro h
      by_contra hne
      simp only [get_java_path_for_major, if_neg hne] at h
      by_cases he : embeddedExists = true
      · simp [he] at h
      · simp only [Bool.not_eq_true] at he
        by_cases hw : (win && embeddedJavawExists) = true
        · simp [he, hw] at h
        · simp [he, hw] at h
    · intro h
      simp [get_java_path_for_major, h]
  · intro hne he
    simp [get_java_path_for_major, hne, he]
  · intro hne he hw
    simp [get_java_path_for_major, hne, he, hw]
  · intro hne he hw
    simp [get_java_path_for_major, hne, he, hw]

/-- Witness for C8 at concrete inputs: system Java 21 with Java 17 requested
is rejected, and the embedded install is used instead. -/
theorem c8_java_lookup_policy_witness :
    (some 21 ≠ some 17) ∧
    get_java_path_for_major (some 21) true false false 17 = .embedded :=
  ⟨by decide, (c8_java_lookup_policy (some 21) true false false 17).2.1 (by decide) rfl⟩

/- ====================================================================
   src/src-tauri/src/minecraft/downloader.rs
   ==================================================================== -/

/-- Outcome of one GET attempt inside `downloader.rs::download_file`.  Each
constructor records the effect on the destination file of the corresponding
Rust branch: `netErr` (`client.get(...).send()` errors) and `badStatus`
(non-success HTTP status) happen before `File::create`, so the file is
untouched; `createErr` is a failing `File::create` (file untouched);
`writeErr` is a failing `std::io::copy` after a truncating `File::create`
(the file holds the partial content); `fetched` is a successful download that
overwrites the file with the received content. -/
inductive AttemptOutcome (Content : Type) where
  | netErr (msg : Str)
  | badStatus (statusText : Str)
  | createErr (msg : Str)
  | writeErr (partialContent : Content) (msg : Str)
  | fetched (content : Content)

/-- Result of the modelled `download_file`: the returned `Result`, the final
contents of the destination file (`none` = no file at the path), and the
number of network GET requests that were issued. -/
structure DownloadResult (Content : Type) where
  result : Except Str Unit
  file : Option Content
  netCalls : Nat

/-- `downloader.rs::verify_hash` on an explicit file state: a missing file
fails; otherwise the hex-encoded SHA-1 of the contents (`hashOf`) is compared
with the lowercased expected string. -/
def verify_hash {Content : Type} (hashOf : Content → Str)
    (file : Option Content) (expected : Str) : Bool :=
  match file with
  | some c => hashOf c = toLowerStr expected
  | none => false

/-- Error message of a failed attempt, as formatted by `download_file`
before the `(attempt i/3)` suffix is appended. -/
def attemptErrMsg {Content : Type} : AttemptOutcome Content → Str
  | .netErr m => ("Network error: ".data) ++ m
  | .badStatus s => ("Download failed with status: ".data) ++ s
  | .createErr m => ("File creation error: ".data) ++ m
  | .writeErr _ m => ("Write error: ".data) ++ m
  | .fetched _ => []

/-- The retry loop of `download_file` (`for attempt in 1..=max_retries`),
with `max_retries = 3`.  `net` maps the attempt number to that attempt's
outcome; `fuel` counts the remaining attempts and `attempt` the current
attempt number.  The hash-mismatch branch records the
`Hash mismatch for {url} (attempt i/3)` message and removes the bad file. -/
def dlAttempts {Content : Type} (hashOf : Content → Str) (url : Str)
    (sha1 : Option Str) (net : Nat → AttemptOutcome Content) :
    Nat → Nat → Option Content → Str → DownloadResult Content
  | 0, _, file, lastError =>
    { result := .error (("Failed to download ".data) ++ url ++
        (" after 3 attempts. Last error: ".data) ++ lastError),
      file := file, netCalls := 3 }
  | fuel + 1, attempt, file, _lastError =>
    let attemptSuffix := (" (attempt ".data) ++ natToStr attempt ++ ("/3)".data)
    match net attempt with
    | .fetched c =>
      match sha1 with
      | some expected =>
        if hashOf c = toLowerStr expected then
          { result := .ok (), file := some c, netCalls := attempt }
        else
          dlAttempts hashOf url sha1 net fuel (attempt + 1) none
            (("Hash mismatch for ".data) ++ url ++ attemptSuffix)
      | none => { result := .ok (), file := some c, netCalls := attempt }
    | .netErr m =>
      dlAttempts hashOf url sha1 net fuel (attempt + 1) file
        (attemptErrMsg (AttemptOutcome.netErr m : AttemptOutcome Content) ++ attemptSuffix)
    | .badStatus s =>
      dlAttempts hashOf url sha1 net fuel (attempt + 1) file
        (attemptErrMsg (AttemptOutcome.badStatus s : AttemptOutcome Content) ++ attemptSuffix)
    | .createErr m =>
      dlAttempts hashOf url sha1 net fuel (attempt + 1) file
        (attemptErrMsg (AttemptOutcome.createErr m : AttemptOutcome Content) ++ attemptSuffix)
    | .writeErr p m =>
      dlAttempts hashOf url sha1 net fuel (attempt + 1) (some p)
        (attemptErrMsg (AttemptOutcome.writeErr p m : AttemptOutcome Content) ++ attemptSuffix)

/-- `downloader.rs::download_file`, with the filesystem and network explicit:
`file0` is the initial contents of the destination path, `hashOf` the
hex-encoded SHA-1 of a content value, and `net i` the outcome the network
and filesystem produce for the `i`-th GET attempt.  If the destination
exists and either matches the expected hash or no hash was given, the
function returns `Ok` without touching the network; otherwise it runs up to
3 attempts. -/
def download_file {Content : Type} (hashOf : Content → Str) (url : Str)
    (file0 : Option Content) (sha1 : Option Str)
    (net : Nat → AttemptOutcome Content) : DownloadResult Content :=
  match file0 with
  | some c =>
    match sha1 with
    | some expected =>
      if verify_hash hashOf (some c) expected then
        { result := .ok (), file := some c, netCalls := 0 }
      else
        dlAttempts hashOf url sha1 net 3 1 (some c) []
    | none => { result := .ok (), file := some c, netCalls := 0 }
  | none => dlAttempts hashOf url sha1 net 3 1 none []

/- ====================================================================
   Theorems for C4, C5, C6
   ==================================================================== -/

/-- C4: when the destination file already exists and its contents hash to
the expected value, `download_file` succeeds, issues zero network requests,
and leaves the file unchanged. -/
theorem c4_existing_valid_file_skips_network {Content : Type}
    (hashOf : Content → Str) (url : Str) (c : Content) (expected : Str)
    (net : Nat → AttemptOutcome Content)
    (hmatch : hashOf c = toLowerStr expected) :
    download_file hashOf url (some c) (some expected) net =
      { result := .ok (), file := some c, netCalls := 0 } := by
  simp [download_file, verify_hash, hmatch]

/-- Witness for C4: a concrete content whose hash matches the (uppercase)
expected string is served from disk with zero network calls. -/
theorem c4_existing_valid_file_skips_network_witness :
    (fun _ : Nat => ("ab".data)) 7 = toLowerStr ("AB".data) ∧
    download_file (fun _ : Nat => ("ab".data)) ("u".data) (some 7)
        (some ("AB".data)) (fun _ => .netErr []) =
      { result := .ok (), file := some 7, netCalls := 0 } :=
  ⟨by decide, c4_existing_valid_file_skips_network (fun _ => ("ab".data))
    ("u".data) 7 ("AB".data) (fun _ => .netErr []) (by decide)⟩

/-- C5: if the destination does not already hold matching content and all
three attempts download content whose hash mismatches, `download_file`
returns the hash-mismatch error (wrapped in the final failure message) and
the destination file is removed. -/
theorem c5_all_hash_mismatch_removes_file {Content : Type}
    (hashOf : Content → Str) (url : Str) (file0 : Option Content)
    (expected : Str) (net : Nat → AttemptOutcome Content)
    (hfile0 : file0 = none ∨ ∃ c0, file0 = some c0 ∧ hashOf c0 ≠ toLowerStr expected)
    (hnet : ∀ i, 1 ≤ i → i ≤ 3 → ∃ c, net i = .fetched c ∧ hashOf c ≠ toLowerStr expected) :
    download_file hashOf url file0 (some expected) net =
      { result := .error (("Failed to download ".data) ++ url ++
          (" after 3 attempts. Last error: ".data) ++
          ("Hash mismatch for ".data) ++ url ++ (" (attempt ".data) ++
          natToStr 3 ++ ("/3)".data)),
        file := none, netCalls := 3 } := by
  obtain ⟨c1, h1, m1⟩ := hnet 1 (by omega) (by omega)
  obtain ⟨c2, h2, m2⟩ := hnet 2 (by omega) (by omega)
  obtain ⟨c3, h3, m3⟩ := hnet 3 (by omega) (by omega)
  have run : dlAttempts hashOf url (some expected) net 3 1 file0 [] =
      { result := .error (("Failed to download ".data) ++ url ++
          (" after 3 attempts. Last error: ".data) ++
          ("Hash mismatch for ".data) ++ url ++ (" (attempt ".data) ++
          natToStr 3 ++ ("/3)".data)),
        file := none, netCalls := 3 } := by
    have run3 : dlAttempts hashOf url (some expected) net 1 3 none
        (("Hash mismatch for ".data) ++ url ++ (" (attempt ".data) ++
          natToStr 2 ++ ("/3)".data)) =
        { result := .error (("Failed to download ".data) ++ url ++
            (" after 3 attempts. Last error: ".data) ++
            ("Hash mismatch for ".data) ++ url ++ (" (attempt ".data) ++
            natToStr 3 ++ ("/3)".data)),
          file := none, netCalls := 3 } := by
      simp [dlAttempts, h3, m3]
    have run2 : dlAttempts hashOf url (some expected) net 2 2 none
        (("Hash mismatch for ".data) ++ url ++ (" (attempt ".data) ++
          natToStr 1 ++ ("/3)".data)) =
        { result := .error (("Failed to download ".data) ++ url ++
            (" after 3 attempts. Last error: ".data) ++
            ("Hash mismatch for ".data) ++ url ++ (" (attempt ".data) ++
            natToStr 3 ++ ("/3)".data)),
          file := none, netCalls := 3 } := by
      simp only [dlAttempts, h2, m2, if_neg m2]
      exact run3
    simp only [dlAttempts, h1, if_neg m1]
    exact run2
  rcases hfile0 with h0 | ⟨c0, h0, hm0⟩
  · rw [h0] at run ⊢
    simp [download_file, run]
  · rw [h0] at run ⊢
    simp [download_file, verify_hash, hm0, run]

/-- Witness for C5: with no pre-existing file and every attempt fetching
content hashing to "bb" against expected "aa", the batch fails with the
final hash-mismatch message and no file remains. -/
theorem c5_all_hash_mismatch_removes_file_witness :
    ((none : Option Nat) = none ∨ ∃ c0, (none : Option Nat) = some c0 ∧
        (fun _ : Nat => ("bb".data)) c0 ≠ toLowerStr ("aa".data)) ∧
    download_file (fun _ : Nat => ("bb".data)) ("u".data) none
        (some ("aa".data)) (fun _ => .fetched 0) =
      { result := .error (("Failed to download ".data) ++ ("u".data) ++
          (" after 3 attempts. Last error: ".data) ++
          ("Hash mismatch for ".data) ++ ("u".data) ++ (" (attempt ".data) ++
          natToStr 3 ++ ("/3)".data)),
        file := none, netCalls := 3 } :=
  ⟨Or.inl rfl,
    c5_all_hash_mismatch_removes_file (fun _ => ("bb".data)) ("u".data) none
      ("aa".data) (fun _ => .fetched 0) (Or.inl rfl)
      (fun _ _ _ => ⟨0, rfl, by decide⟩)⟩

/-- An attempt outcome of the kinds the retry loop treats as retryable in the
sense of C6: a network error, a non-success HTTP status, or a downloaded
content whose hash mismatches the expected one. -/
def attemptFailsForHash {Content : Type} (hashOf : Content → Str)
    (expected : Str) (o : AttemptOutcome Content) : Prop :=
  (∃ m, o = .netErr m) ∨ (∃ s, o = .badStatus s) ∨
  (∃ c, o = .fetched c ∧ hashOf c ≠ toLowerStr expected)

/-- The retry loop never performs more GET attempts than it has fuel for:
starting from `attempt + fuel = 4` (the real call is `fuel = 3`,
`attempt = 1`), at most 3 network calls are recorded. -/
theorem dlAttempts_netCalls_le_three {Content : Type} (hashOf : Content → Str)
    (url : Str) (sha1 : Option Str) (net : Nat → AttemptOutcome Content)
    (fuel attempt : Nat) (file : Option Content) (lastError : Str)
    (h : attempt + fuel = 4) :
    (dlAttempts hashOf url sha1 net fuel attempt file lastError).netCalls ≤ 3 := by
  induction fuel generalizing attempt file lastError with
  | zero => simp [dlAttempts]
  | succ n ih =>
    cases hnet : net attempt with
    | fetched c =>
      cases sha1 with
      | some expected =>
        by_cases hm : hashOf c = toLowerStr expected
        · simp [dlAttempts, hnet, hm]; omega
        · simp only [dlAttempts, hnet, if_neg hm]
          exact ih _ _ _ (by omega)
      | none => simp [dlAttempts, hnet]; omega
    | netErr m =>
      simp only [dlAttempts, hnet]
      exact ih _ _ _ (by omega)
    | badStatus s =>
      simp only [dlAttempts, hnet]
      exact ih _ _ _ (by omega)
    | createErr m =>
      simp only [dlAttempts, hnet]
      exact ih _ _ _ (by omega)
    | writeErr p m =>
      simp only [dlAttempts, hnet]
      exact ih _ _ _ (by omega)

/-- A failing attempt (in the sense of `attemptFailsForHash`) makes the retry
loop move on to the next attempt with some file state and error message. -/
theorem dlAttempts_fail_step {Content : Type} (hashOf : Content → Str)
    (url expected : Str) (net : Nat → AttemptOutcome Content)
    (fuel attempt : Nat) (file : Option Content) (lastError : Str)
    (h : attemptFailsForHash hashOf expected (net attempt)) :
    ∃ file2 lastError2,
      dlAttempts hashOf url (some expected) net (fuel + 1) attempt file lastError =
        dlAttempts hashOf url (some expected) net fuel (attempt + 1) file2 lastError2 := by
  rcases h with ⟨m, hm⟩ | ⟨s, hs⟩ | ⟨c, hc, hmm⟩
  · exact ⟨file, attemptErrMsg (AttemptOutcome.netErr m : AttemptOutcome Content) ++
      ((" (attempt ".data) ++ natToStr attempt ++ ("/3)".data)),
      by simp only [dlAttempts, hm]⟩
  · exact ⟨file, attemptErrMsg (AttemptOutcome.badStatus s : AttemptOutcome Content) ++
      ((" (attempt ".data) ++ natToStr attempt ++ ("/3)".data)),
      by simp only [dlAttempts, hs]⟩
  · exact ⟨none, ("Hash mismatch for ".data) ++ url ++
      ((" (attempt ".data) ++ natToStr attempt ++ ("/3)".data)),
      by simp only [dlAttempts, hc, if_neg hmm]⟩

/-- C6: if the destination does not already hold matching content, the first
two attempts fail (network error, bad status, or hash mismatch) and the third
attempt downloads content with the expected hash, then `download_file`
returns `Ok` (no error surfaced), the file holds the downloaded content, and
exactly 3 network calls were made; moreover the attempt ceiling is 3 for any
inputs. -/
theorem c6_two_failures_then_success {Content : Type} (hashOf : Content → Str)
    (url : Str) (file0 : Option Content) (expected : Str)
    (net : Nat → AttemptOutcome Content) (c3 : Content)
    (hfile0 : file0 = none ∨ ∃ c0, file0 = some c0 ∧ hashOf c0 ≠ toLowerStr expected)
    (h1 : attemptFailsForHash hashOf expected (net 1))
    (h2 : attemptFailsForHash hashOf expected (net 2))
    (h3 : net 3 = .fetched c3) (hm3 : hashOf c3 = toLowerStr expected) :
    (download_file hashOf url file0 (some expected) net).result = .ok () ∧
    (download_file hashOf url file0 (some expected) net).file = some c3 ∧
    (download_file hashOf url file0 (some expected) net).netCalls = 3 ∧
    (∀ (file0' : Option Content) (net' : Nat → AttemptOutcome Content),
      (download_file hashOf url file0' (some expected) net').netCalls ≤ 3) := by
  obtain ⟨f2, e2, heq1⟩ :=
    dlAttempts_fail_step hashOf url expected net 2 1 file0 [] h1
  obtain ⟨f3, e3, heq2⟩ :=
    dlAttempts_fail_step hashOf url expected net 1 2 f2 e2 h2
  have final : dlAttempts hashOf url (some expected) net 1 3 f3 e3 =
      { result := .ok (), file := some c3, netCalls := 3 } := by
    simp [dlAttempts, h3, hm3]
  have run : dlAttempts hashOf url (some expected) net 3 1 file0 [] =
      { result := .ok (), file := some c3, netCalls := 3 } := by
    rw [heq1, heq2, final]
  have hdl : download_file hashOf url file0 (some expected) net =
      { result := .ok (), file := some c3, netCalls := 3 } := by
    rcases hfile0 with h0 | ⟨c0, h0, hm0⟩
    · rw [h0] at run ⊢
      simp [download_file, run]
    · rw [h0] at run ⊢
      simp [download_file, verify_hash, hm0, run]
  refine ⟨by rw [hdl], by rw [hdl], by rw [hdl], ?_⟩
  intro file0' net'
  cases file0' with
  | none =>
    simp only [download_file]
    exact dlAttempts_netCalls_le_three hashOf url (some expected) net' 3 1 none [] (by omega)
  | some c0 =>
    simp only [download_file]
    by_cases hv : verify_hash hashOf (some c0) expected = true
    · simp [hv]
    · simp only [Bool.not_eq_true] at hv
      simp only [hv, Bool.false_eq_true, if_false]
      exact dlAttempts_netCalls_le_three hashOf url (some expected) net' 3 1 (some c0) [] (by omega)

/-- Witness for C6: attempt 1 is a network error, attempt 2 fetches content
with the wrong hash, attempt 3 fetches matching content; the call succeeds
after exactly 3 network requests. -/
theorem c6_two_failures_then_success_witness :
    (download_file (fun n : Nat => if n = 1 then ("aa".data) else ("bb".data))
        ("u".data) none (some ("aa".data))
        (fun i => if i = 1 then .netErr ("x".data)
                  else if i = 2 then .fetched 2 else .fetched 1)).result = .ok () ∧
    (download_file (fun n : Nat => if n = 1 then ("aa".data) else ("bb".data))
        ("u".data) none (some ("aa".data))
        (fun i => if i = 1 then .netErr ("x".data)
                  else if i = 2 then .fetched 2 else .fetched 1)).netCalls = 3 := by
  have h := c6_two_failures_then_success
    (fun n : Nat => if n = 1 then ("aa".data) else ("bb".data)) ("u".data) none
    ("aa".data)
    (fun i => if i = 1 then .netErr ("x".data)
              else if i = 2 then .fetched 2 else .fetched 1) 1
    (Or.inl rfl)
    (Or.inl ⟨("x".data), rfl⟩)
    (Or.inr (Or.inr ⟨2, rfl, by decide⟩))
    rfl (by decide)
  exact ⟨h.1, h.2.2.1⟩

/- ====================================================================
   src/src-tauri/src/minecraft/launch_logic.rs — fetch_manifest_with_fallback
   ==================================================================== -/

/-- What one manifest endpoint produced in
`launch_logic.rs::fetch_manifest_with_fallback`: a parsed manifest, a
transport error from `send()`, a non-success HTTP status, or a JSON parse
failure.  The manifest type is abstracted as `α`. -/
inductive FetchOutcome (α : Type) where
  | ok (manifest : α)
  | netErr (msg : Str)
  | badStatus (statusText : Str)
  | parseErr (msg : Str)
deriving DecidableEq

/-- The `last_err` message `fetch_manifest_with_fallback` records for a
failed endpoint. -/
def fetchFailMsg {α : Type} : FetchOutcome α → Str
  | .ok _ => []
  | .netErr m => ("Failed to fetch manifest: ".data) ++ m
  | .badStatus s => ("Manifest returned status: ".data) ++ s
  | .parseErr m => ("Failed to parse manifest: ".data) ++ m

/-- Whether an endpoint outcome is a successfully parsed manifest. -/
def isFetchOk {α : Type} : FetchOutcome α → Bool
  | .ok _ => true
  | .netErr _ => false
  | .badStatus _ => false
  | .parseErr _ => false

/-- The loop of `fetch_manifest_with_fallback` over the remaining endpoint
outcomes, threading `last_err`. -/
def fetchManifestGo {α : Type} : List (FetchOutcome α) → Str → Except Str α
  | [], lastErr => .error lastErr
  | o :: rest, _lastErr =>
    match o with
    | .ok m => .ok m
    | .netErr m => fetchManifestGo rest (fetchFailMsg (FetchOutcome.netErr m : FetchOutcome α))
    | .badStatus s => fetchManifestGo rest (fetchFailMsg (FetchOutcome.badStatus s : FetchOutcome α))
    | .parseErr m => fetchManifestGo rest (fetchFailMsg (FetchOutcome.parseErr m : FetchOutcome α))

/-- `launch_logic.rs::fetch_manifest_with_fallback`, with the network made
explicit: `responses` lists, in order, what each mirror endpoint in `urls`
produced.  `last_err` starts as the empty string. -/
def fetch_manifest_with_fallback {α : Type}
    (responses : List (FetchOutcome α)) : Except Str α :=
  fetchManifestGo responses []

/-- If every outcome before the `.ok` is a failure, the loop returns that
first successfully parsed manifest, whatever `last_err` holds. -/
theorem fetchManifestGo_first_ok {α : Type} (m : α) (post : List (FetchOutcome α)) :
    ∀ (pre : List (FetchOutcome α)) (lastErr : Str),
      (∀ o ∈ pre, isFetchOk o = false) →
      fetchManifestGo (pre ++ .ok m :: post) lastErr = .ok m := by
  intro pre
  induction pre with
  | nil => intro lastErr _; simp [fetchManifestGo]
  | cons o rest ih =>
    intro lastErr hall
    have ho := hall o (by simp)
    have hrest : ∀ o ∈ rest, isFetchOk o = false := fun x hx => hall x (by simp [hx])
    cases o with
    | ok m2 => simp [isFetchOk] at ho
    | netErr msg => simpa [fetchManifestGo] using ih _ hrest
    | badStatus s => simpa [fetchManifestGo] using ih _ hrest
    | parseErr msg => simpa [fetchManifestGo] using ih _ hrest

/-- If every outcome is a failure, the loop returns an error carrying the
message of the last outcome. -/
theorem fetchManifestGo_all_fail {α : Type} :
    ∀ (rs : List (FetchOutcome α)) (lastErr : Str) (last : FetchOutcome α),
      (∀ o ∈ rs, isFetchOk o = false) → rs.getLast? = some last →
      fetchManifestGo rs lastErr = .error (fetchFailMsg last) := by
  intro rs
  induction rs with
  | nil => intro lastErr last _ hlast; simp at hlast
  | cons o rest ih =>
    intro lastErr last hall hlast
    have ho := hall o (by simp)
    have hrest : ∀ x ∈ rest, isFetchOk x = false := fun x hx => hall x (by simp [hx])
    cases rest with
    | nil =>
      simp only [List.getLast?_singleton, Option.some.injEq] at hlast
      subst hlast
      cases o with
      | ok m2 => simp [isFetchOk] at ho
      | netErr msg => simp [fetchManifestGo]
      | badStatus s => simp [fetchManifestGo]
      | parseErr msg => simp [fetchManifestGo]
    | cons o2 rest2 =>
      have hlast2 : (o2 :: rest2).getLast? = some last := by
        rw [List.getLast?_cons_cons] at hlast
        exact hlast
      cases o with
      | ok m2 => simp [isFetchOk] at ho
      | netErr msg =>
        simpa [fetchManifestGo] using
          ih (fetchFailMsg (FetchOutcome.netErr msg : FetchOutcome α)) last hrest hlast2
      | badStatus s =>
        simpa [fetchManifestGo] using
          ih (fetchFailMsg (FetchOutcome.badStatus s : FetchOutcome α)) last hrest hlast2
      | parseErr msg =>
        simpa [fetchManifestGo] using
          ih (fetchFailMsg (FetchOutcome.parseErr msg : FetchOutcome α)) last hrest hlast2

/-- C9: `fetch_manifest_with_fallback` tries the endpoints in order and
returns the manifest of the first endpoint whose response parses
successfully; if every endpoint fails, it returns an error carrying the last
failure message. -/
theorem c9_manifest_fallback {α : Type} (rs : List (FetchOutcome α)) :
    (∀ (pre : List (FetchOutcome α)) (m : α) (post : List (FetchOutcome α)),
      rs = pre ++ .ok m :: post → (∀ o ∈ pre, isFetchOk o = false) →
      fetch_manifest_with_fallback rs = .ok m) ∧
    (∀ last, (∀ o ∈ rs, isFetchOk o = false) → rs.getLast? = some last →
      fetch_manifest_with_fallback rs = .error (fetchFailMsg last)) := by
  constructor
  · intro pre m post hsplit hall
    rw [hsplit]
    exact fetchManifestGo_first_ok m post pre [] hall
  · intro last hall hlast
    exact fetchManifestGo_all_fail rs [] last hall hlast

/-- Witness for C9: the second of three endpoints is the first to parse, and
its manifest is returned; an all-failing list returns the last message. -/
theorem c9_manifest_fallback_witness :
    fetch_manifest_with_fallback
        [FetchOutcome.netErr ("x".data), FetchOutcome.ok 5,
         FetchOutcome.parseErr ("y".data)] = .ok 5 ∧
    fetch_manifest_with_fallback
        [(FetchOutcome.badStatus ("500".data) : FetchOutcome Nat),
         FetchOutcome.parseErr ("y".data)] =
      .error (fetchFailMsg (FetchOutcome.parseErr ("y".data) : FetchOutcome Nat)) :=
  ⟨(c9_manifest_fallback _).1 [FetchOutcome.netErr ("x".data)] 5
      [FetchOutcome.parseErr ("y".data)] rfl (by decide),
   (c9_manifest_fallback _).2 (FetchOutcome.parseErr ("y".data)) (by decide) rfl⟩

/- ====================================================================
   src/src-tauri/src/minecraft/models.rs — the version-descriptor data model
   ==================================================================== -/

/-- `models.rs::OsRule`. -/
structure OsRule where
  name : Option Str
  version : Option Str
  arch : Option Str
deriving DecidableEq, Repr

/-- `models.rs::Rule` (`action` is "allow" or "disallow"). -/
structure Rule where
  action : Str
  os : Option OsRule
deriving DecidableEq, Repr

/-- `models.rs::DownloadArtifact`. -/
structure DownloadArtifact where
  sha1 : Str
  size : Nat
  url : Str
  path : Option Str
deriving DecidableEq, Repr

/-- `models.rs::LibraryDownloads`; the classifier `HashMap` is modelled as an
association list. -/
structure LibraryDownloads where
  artifact : Option DownloadArtifact
  classifiers : Option (List (Str × DownloadArtifact))
deriving DecidableEq, Repr

/-- `models.rs::Library`; the natives `HashMap` is modelled as an
association list. -/
structure Library where
  name : Str
  downloads : Option LibraryDownloads
  url : Option Str
  natives : Option (List (Str × Str))
  rules : Option (List Rule)
deriving DecidableEq, Repr

/-- `models.rs::ArgumentValue` (untagged union of a string and a list). -/
inductive ArgumentValue where
  | single (s : Str)
  | multiple (vs : List Str)
deriving DecidableEq, Repr

/-- `models.rs::ComplexArgument`. -/
structure ComplexArgument where
  rules : List Rule
  value : ArgumentValue
deriving DecidableEq, Repr

/-- `models.rs::Argument` (untagged union of a bare token and a ruled one). -/
inductive Argument where
  | simple (s : Str)
  | complex (c : ComplexArgument)
deriving DecidableEq, Repr

/-- `models.rs::Arguments`. -/
structure Arguments where
  game : Option (List Argument)
  jvm : Option (List Argument)
deriving DecidableEq, Repr

/-- `models.rs::JavaVersion`. -/
structure JavaVersion where
  component : Str
  major_version : Nat
deriving DecidableEq, Repr

/-- `models.rs::AssetIndexRef`. -/
structure AssetIndexRef where
  id : Str
  sha1 : Str
  size : Nat
  total_size : Nat
  url : Str
deriving DecidableEq, Repr

/-- `models.rs::VersionDownloads`. -/
structure VersionDownloads where
  client : DownloadArtifact
  server : Option DownloadArtifact
deriving DecidableEq, Repr

/-- `models.rs::LogFile`. -/
structure LogFile where
  id : Str
  sha1 : Str
  size : Nat
  url : Option Str
deriving DecidableEq, Repr

/-- `models.rs::ClientLogging`. -/
structure ClientLogging where
  argument : Option Str
  file : Option LogFile
  log_type : Option Str
deriving DecidableEq, Repr

/-- `models.rs::Logging`. -/
structure Logging where
  client : Option ClientLogging
deriving DecidableEq, Repr

/-- `models.rs::VersionInfo`, the (possibly unresolved) version descriptor. -/
structure VersionInfo where
  id : Str
  inherits_from : Option Str
  asset_index : Option AssetIndexRef
  assets : Option Str
  downloads : Option VersionDownloads
  libraries : List Library
  main_class : Str
  minecraft_arguments : Option Str
  arguments : Option Arguments
  version_type : Str
  java_version : Option JavaVersion
  logging : Option Logging
deriving DecidableEq, Repr

/- ====================================================================
   src/src-tauri/src/minecraft/utils.rs — check_rules
   ==================================================================== -/

/-- The per-rule OS predicate inside `utils.rs::check_rules`: `os_match`
starts `true` and is cleared when a present `os.name` differs from the
current OS name or a present `os.arch` differs from the current architecture
(the `version` field is ignored, as in the source). -/
def ruleMatches (os arch : Str) (rule : Rule) : Bool :=
  match rule.os with
  | none => true
  | some osRule =>
    (match osRule.name with
     | some n => decide (n = os)
     | none => true) &&
    (match osRule.arch with
     | some a => decide (a = arch)
     | none => true)

/-- One iteration of the `for rule in rules` loop of `utils.rs::check_rules`:
a matching rule overwrites `allowed` with `action == "allow"`. -/
def checkRulesStep (os arch : Str) (allowed : Bool) (rule : Rule) : Bool :=
  if ruleMatches os arch rule then decide (rule.action = ("allow".data)) else allowed

/-- `utils.rs::check_rules`, with the current platform passed explicitly
(`os` = `get_os_name()`, `arch` = `get_arch()`): absent or empty rule lists
allow; otherwise `allowed` starts `false` and the last matching rule wins. -/
def check_rules (os arch : Str) (rules : Option (List Rule)) : Bool :=
  match rules with
  | none => true
  | some rules =>
    if rules.isEmpty then true
    else rules.foldl (checkRulesStep os arch) false

/-- Folding `checkRulesStep` over rules none of which match leaves the
accumulator unchanged. -/
theorem checkRules_foldl_no_match (os arch : Str) :
    ∀ (l : List Rule) (acc : Bool), (∀ r ∈ l, ruleMatches os arch r = false) →
      l.foldl (checkRulesStep os arch) acc = acc := by
  intro l
  induction l with
  | nil => intro acc _; rfl
  | cons r rest ih =>
    intro acc hall
    have hr := hall r (by simp)
    have hrest : ∀ x ∈ rest, ruleMatches os arch x = false :=
      fun x hx => hall x (by simp [hx])
    simp only [List.foldl_cons, checkRulesStep, hr, Bool.false_eq_true, if_false]
    exact ih acc hrest

/-- C10: `check_rules` allows when the rule list is absent or empty; for a
non-empty list the last rule whose OS/arch predicate matches the platform
decides the outcome (`action == "allow"`), and with no matching rule at all
the result is disallow (`false`). -/
theorem c10_check_rules_last_match_wins (os arch : Str) :
    check_rules os arch none = true ∧
    check_rules os arch (some []) = true ∧
    (∀ (pre : List Rule) (rule : Rule) (post : List Rule),
      ruleMatches os arch rule = true →
      (∀ r ∈ post, ruleMatches os arch r = false) →
      check_rules os arch (some (pre ++ rule :: post)) =
        decide (rule.action = ("allow".data))) ∧
    (∀ rules : List Rule, rules ≠ [] →
      (∀ r ∈ rules, ruleMatches os arch r = false) →
      check_rules os arch (some rules) = false) := by
  refine ⟨rfl, rfl, ?_, ?_⟩
  · intro pre rule post hmatch hpost
    have hne : (pre ++ rule :: post).isEmpty = false := by
      cases pre <;> rfl
    simp only [check_rules, hne, Bool.false_eq_true, if_false]
    rw [List.foldl_append, List.foldl_cons]
    rw [checkRules_foldl_no_match os arch post _ hpost]
    simp [checkRulesStep, hmatch]
  · intro rules hne hall
    have hne2 : rules.isEmpty = false := by
      cases rules with
      | nil => exact absurd rfl hne
      | cons a l => rfl
    simp only [check_rules, hne2, Bool.false_eq_true, if_false]
    exact checkRules_foldl_no_match os arch rules false hall

/-- Witness for C10: on linux/x64, a disallow-osx rule list whose last
matching rule is the allow-all rule yields allow, and a list whose only rule
targets another OS yields disallow. -/
theorem c10_check_rules_last_match_wins_witness :
    ruleMatches ("linux".data) ("x64".data)
        { action := ("allow".data), os := none } = true ∧
    check_rules ("linux".data) ("x64".data)
        (some [{ action := ("disallow".data),
                 os := some { name := some ("osx".data), version := none, arch := none } },
               { action := ("allow".data), os := none }]) = true ∧
    check_rules ("linux".data) ("x64".data)
        (some [{ action := ("allow".data),
                 os := some { name := some ("windows".data), version := none, arch := none } }]) =
      false := by
  refine ⟨by decide, ?_, ?_⟩
  · have h := (c10_check_rules_last_match_wins ("linux".data) ("x64".data)).2.2.1
      [{ action := ("disallow".data),
         os := some { name := some ("osx".data), version := none, arch := none } }]
      { action := ("allow".data), os := none } [] (by decide) (by decide)
    simpa using h
  · exact (c10_check_rules_last_match_wins ("linux".data) ("x64".data)).2.2.2
      [{ action := ("allow".data),
         os := some { name := some ("windows".data), version := none, arch := none } }]
      (by decide) (by decide)

/- ====================================================================
   src/src-tauri/src/minecraft/launch_logic.rs — maven names, library dedup,
   and the inheritance merge of resolve_complete_version_info
   ==================================================================== -/

/-- `launch_logic.rs::MavenName`. -/
structure MavenName where
  group : Str
  artifact : Str
  version : Str
  classifier : Option Str
  ext : Str
deriving DecidableEq, Repr

/-- `launch_logic.rs::parse_maven_name`: split on `@` (extension defaults to
"jar"), then split the main part on `:`; fewer than three items fail, a
fourth item is the classifier (further items are ignored, as in the source).
-/
def parse_maven_name (name : Str) : Option MavenName :=
  let parts := splitChar '@' name
  let main := parts.headD []
  let ext : Str :=
    match parts with
    | _ :: e :: _ => e
    | _ => ("jar".data)
  match splitChar ':' main with
  | g :: a :: v :: rest =>
    some { group := g, artifact := a, version := v,
           classifier := rest.head?, ext := ext }
  | _ => none

/-- `launch_logic.rs::maven_path`: the canonical on-repository relative path
`group/…/artifact/version/artifact-version[-classifier].ext`. -/
def maven_path (maven : MavenName) : Option Str :=
  let group_path := maven.group.map (fun c => if c == '.' then '/' else c)
  let filename0 := maven.artifact ++ ('-' :: maven.version)
  let filename1 :=
    match maven.classifier with
    | some classifier =>
      if classifier.isEmpty then filename0 else filename0 ++ ('-' :: classifier)
    | none => filename0
  let filename := filename1 ++ ('.' :: maven.ext)
  some (group_path ++ ('/' :: maven.artifact) ++ ('/' :: maven.version) ++ ('/' :: filename))

/-- The deduplication key of `launch_logic.rs::deduplicate_libraries`:
`group:artifact:classifier` when the name parses as a maven coordinate
(the classifier defaulting to the empty string), the raw name otherwise.
Both kinds of key go into the same `seen` map, as in the source. -/
def dedupKey (lib : Library) : Str :=
  match parse_maven_name lib.name with
  | some maven =>
    maven.group ++ (':' :: maven.artifact) ++ (':' :: (maven.classifier.getD []))
  | none => lib.name

/-- `launch_logic.rs::deduplicate_libraries`: iterate over the reversed list
keeping the first occurrence of each key (hence the last occurrence in the
original order), then reverse the kept entries back. -/
def deduplicate_libraries (libs : List Library) : List Library :=
  ((libs.reverse.foldl
      (fun (st : List Str × List Library) lib =>
        let key := dedupKey lib
        if key ∈ st.1 then st else (st.1 ++ [key], st.2 ++ [lib]))
      ([], [])).2).reverse

/-- C2: when the parent-then-child concatenation consists of two entries with
the same coordinate identity (dedup key), the merged list contains only the
last-seen (child) entry, placed at the position of the identity's first
occurrence (index 0). -/
theorem c2_dedup_keeps_child (a b : Library) (h : dedupKey a = dedupKey b) :
    deduplicate_libraries [a, b] = [b] := by
  simp [deduplicate_libraries, h]

/-- Witness for C2: `g:a:1` (parent) followed by `g:a:2` (child) collapses to
just the child entry. -/
theorem c2_dedup_keeps_child_witness :
    dedupKey { name := ("g:a:1".data), downloads := none, url := none,
               natives := none, rules := none } =
      dedupKey { name := ("g:a:2".data), downloads := none, url := none,
                 natives := none, rules := none } ∧
    deduplicate_libraries
        [{ name := ("g:a:1".data), downloads := none, url := none,
           natives := none, rules := none },
         { name := ("g:a:2".data), downloads := none, url := none,
           natives := none, rules := none }] =
      [{ name := ("g:a:2".data), downloads := none, url := none,
         natives := none, rules := none }] :=
  ⟨by decide,
   c2_dedup_keeps_child
     { name := ("g:a:1".data), downloads := none, url := none,
       natives := none, rules := none }
     { name := ("g:a:2".data), downloads := none, url := none,
       natives := none, rules := none } (by decide)⟩

/-- The parent-child merge step of
`launch_logic.rs::resolve_complete_version_info` (the body of the
`if let Some(parent_id)` block, applied to the already-resolved parent):
libraries are concatenated parent-then-child and deduplicated; the argument
lists are concatenated parent-then-child; the scalar fields are filled from
the parent only when absent on the child. -/
def merge_inherited_version_info (child parent : VersionInfo) : VersionInfo :=
  let libs := deduplicate_libraries (parent.libraries ++ child.libraries)
  let args : Option Arguments :=
    match child.arguments with
    | none => parent.arguments
    | some child_args =>
      match parent.arguments with
      | none => some child_args
      | some parent_args =>
        let game :=
          match parent_args.game with
          | some parent_game =>
            some (match child_args.game with
                  | some child_game => parent_game ++ child_game
                  | none => parent_game)
          | none => child_args.game
        let jvm :=
          match parent_args.jvm with
          | some parent_jvm =>
            some (match child_args.jvm with
                  | some child_jvm => parent_jvm ++ child_jvm
                  | none => parent_jvm)
          | none => child_args.jvm
        some { game := game, jvm := jvm }
  { child with
    libraries := libs
    arguments := args
    minecraft_arguments := child.minecraft_arguments.or parent.minecraft_arguments
    asset_index := child.asset_index.or parent.asset_index
    assets := child.assets.or parent.assets
    downloads := child.downloads.or parent.downloads
    java_version := child.java_version.or parent.java_version }

/-- The game-argument list of a descriptor, reading an absent `arguments`
block or an absent `game` field as the empty list. -/
def gameArgsOf (v : VersionInfo) : List Argument :=
  match v.arguments with
  | some args => args.game.getD []
  | none => []

/-- The jvm-argument list of a descriptor, reading an absent `arguments`
block or an absent `jvm` field as the empty list. -/
def jvmArgsOf (v : VersionInfo) : List Argument :=
  match v.arguments with
  | some args => args.jvm.getD []
  | none => []

/-- C3: in the merge of `resolve_complete_version_info`, each scalar field
(`assetIndex`, `assets`, `downloads`, `javaVersion`, the legacy argument
string) equals `child-value-or-else-parent-value` — so a child value present
is never overwritten — and the merged game and jvm argument lists are the
parent's list followed by the child's list. -/
theorem c3_merge_semantics (child parent : VersionInfo) :
    (merge_inherited_version_info child parent).asset_index =
      child.asset_index.or parent.asset_index ∧
    (merge_inherited_version_info child parent).assets =
      child.assets.or parent.assets ∧
    (merge_inherited_version_info child parent).downloads =
      child.downloads.or parent.downloads ∧
    (merge_inherited_version_info child parent).java_version =
      child.java_version.or parent.java_version ∧
    (merge_inherited_version_info child parent).minecraft_arguments =
      child.minecraft_arguments.or parent.minecraft_arguments ∧
    gameArgsOf (merge_inherited_version_info child parent) =
      gameArgsOf parent ++ gameArgsOf child ∧
    jvmArgsOf (merge_inherited_version_info child parent) =
      jvmArgsOf parent ++ jvmArgsOf child := by
  refine ⟨rfl, rfl, rfl, rfl, rfl, ?_, ?_⟩
  · cases hc : child.arguments with
    | none =>
      cases hp : parent.arguments with
      | none => simp [merge_inherited_version_info, gameArgsOf, hc, hp]
      | some pa => simp [merge_inherited_version_info, gameArgsOf, hc, hp]
    | some ca =>
      cases hp : parent.arguments with
      | none => simp [merge_inherited_version_info, gameArgsOf, hc, hp]
      | some pa =>
        cases hpg : pa.game with
        | none =>
          cases hcg : ca.game with
          | none => simp [merge_inherited_version_info, gameArgsOf, hc, hp, hpg, hcg]
          | some cg => simp [merge_inherited_version_info, gameArgsOf, hc, hp, hpg, hcg]
        | some pg =>
          cases hcg : ca.game with
          | none => simp [merge_inherited_version_info, gameArgsOf, hc, hp, hpg, hcg]
          | some cg => simp [merge_inherited_version_info, gameArgsOf, hc, hp, hpg, hcg]
  · cases hc : child.arguments with
    | none =>
      cases hp : parent.arguments with
      | none => simp [merge_inherited_version_info, jvmArgsOf, hc, hp]
      | some pa => simp [merge_inherited_version_info, jvmArgsOf, hc, hp]
    | some ca =>
      cases hp : parent.arguments with
      | none => simp [merge_inherited_version_info, jvmArgsOf, hc, hp]
      | some pa =>
        cases hpj : pa.jvm with
        | none =>
          cases hcj : ca.jvm with
          | none => simp [merge_inherited_version_info, jvmArgsOf, hc, hp, hpj, hcj]
          | some cj => simp [merge_inherited_version_info, jvmArgsOf, hc, hp, hpj, hcj]
        | some pj =>
          cases hcj : ca.jvm with
          | none => simp [merge_inherited_version_info, jvmArgsOf, hc, hp, hpj, hcj]
          | some cj => simp [merge_inherited_version_info, jvmArgsOf, hc, hp, hpj, hcj]

/- ====================================================================
   src/src-tauri/src/minecraft/forge_loader.rs — the Forge command assembly
   (build_forge_command)

   prepare_and_launch dispatches loaders before its own argument building:
   vanilla/None returns at launch_logic.rs:249-253, fabric at 254-258, and
   forge at 259-263 via forge_loader::download_forge +
   forge_loader::build_forge_command.  The command assembly that actually
   runs for a Forge launch is therefore build_forge_command
   (forge_loader.rs:188-722); the definitions below embed its module-path
   and classpath computation (lines 283-584).  forge_loader.rs:51-77 defines
   parse_maven_name / maven_path / MavenName identical to the launch_logic.rs
   copies modelled above, which are reused here.

   Note on the source text: forge_loader.rs contains a duplicated fragment
   at lines 421-428 (re-declarations of cp_sep / unique_entries /
   final_classpath / module_path_artifacts followed by stray closing braces,
   plus a stray `if` at 411 referencing the loop variable out of scope); the
   coherent continuation is the block at lines 430 onward, which is what is
   modelled.

   In build_forge_command the declared jvm arguments never feed the module
   path or the classpath: `-p`/`--module-path` tokens and their values are
   skipped outright (374, 389, 402), so the `-p` value is exactly the
   injected core-module set, and the `-cp` value is the filtered library
   list plus forced appends, restricted to paths existing on disk (574-577).
   ==================================================================== -/

/-- `PathBuf::join` rendered to a string: the platform's main separator is
inserted between the directory and the (relative) appended path. -/
def joinPath (win : Bool) (dir rel : Str) : Str :=
  dir ++ ((if win then '\\' else '/') :: rel)

/-- `forge_loader.rs::normalize_path_for_comparison` (37-40, same as the
launch_logic.rs copy): backslashes become forward slashes, and on Windows
the result is lowercased. -/
def normalize_path_for_comparison (win : Bool) (p : Str) : Str :=
  let s := p.map (fun c => if c == '\\' then '/' else c)
  if win then toLowerStr s else s

/-- `Path::file_name().and_then(to_str).unwrap_or("")` as used on classpath
entries and scan results: the last non-empty separator-delimited component
(on Windows both separators are recognised).  Rust maps a trailing `..`
component to `None`; that corner is not exercised by jar paths and is mapped
here to the literal component. -/
def fileNameOf (win : Bool) (p : Str) : Str :=
  let s := if win then p.map (fun c => if c == '\\' then '/' else c) else p
  ((splitChar '/' s).filter (fun comp => !comp.isEmpty)).getLastD []

/-- Rust `str::ends_with(pat)`. -/
def strEndsWith (s pat : Str) : Bool := List.isSuffixOf pat s

/-- The `library_map: HashMap<String, MavenName>` of `build_forge_command`,
modelled as an association list with overwrite-on-insert (`HashMap::insert`
replaces the old value for an equal key). -/
abbrev LibMap := List (Str × MavenName)

/-- `HashMap::insert` on the association-list model: the old binding for the
key is removed and the new one recorded. -/
def mapInsert (m : LibMap) (k : Str) (v : MavenName) : LibMap :=
  (m.filter (fun kv => decide (kv.1 ≠ k))) ++ [(k, v)]

/-- `HashMap::get` on the association-list model. -/
def mapLookup (m : LibMap) (k : Str) : Option MavenName :=
  (m.find? (fun kv => decide (kv.1 = k))).map (fun kv => kv.2)

/-- The library-map construction of `build_forge_command` (289-305): for
every library whose name parses, both the canonical maven path and the
declared `downloads.artifact.path` (joined under `libraries_dir` and
normalized) map to the coordinate. -/
def buildLibraryMap (win : Bool) (libraries_dir : Str) (libs : List Library) : LibMap :=
  libs.foldl
    (fun acc lib =>
      match parse_maven_name lib.name with
      | none => acc
      | some maven =>
        let acc :=
          match maven_path maven with
          | some path_str =>
            mapInsert acc
              (normalize_path_for_comparison win
                (joinPath win libraries_dir path_str)) maven
          | none => acc
        match lib.downloads with
        | some dl =>
          match dl.artifact with
          | some artifact =>
            match artifact.path with
            | some path_str =>
              mapInsert acc
                (normalize_path_for_comparison win
                  (joinPath win libraries_dir path_str)) maven
            | none => acc
          | none => acc
        | none => acc)
    []

/-- Whether a coordinate is one of the three Forge core modules that
`build_forge_command` puts on the module path (310). -/
def isCoreModuleMaven (maven : MavenName) : Bool :=
  decide (maven.group = ("cpw.mods".data)) &&
  (decide (maven.artifact = ("securejarhandler".data)) ||
   decide (maven.artifact = ("modlauncher".data)) ||
   decide (maven.artifact = ("bootstraplauncher".data)))

/-- `HashSet::insert` on the insertion-ordered list model of a set. -/
def insertUnique {α : Type} [DecidableEq α] (acc : List α) (v : α) : List α :=
  if v ∈ acc then acc else acc ++ [v]

/-- One step of building `module_path_set` (309-316): a
`cpw.mods:securejarhandler`/`modlauncher`/`bootstraplauncher` entry of the
library map adds its jar path to the set. -/
def coreModuleStep (win : Bool) (libraries_dir : Str) (acc : List Str)
    (kv : Str × MavenName) : List Str :=
  if isCoreModuleMaven kv.2 then
    match maven_path kv.2 with
    | some rel =>
      let full := joinPath win libraries_dir rel
      if full ∈ acc then acc else acc ++ [full]
    | none => acc
  else acc

/-- The `module_path_set` of `build_forge_command` (307-333), written as the
`-p` value: exactly the jar paths of the core Forge modules present in the
library map — the descriptor's declared `-p` values are skipped by the
jvm-argument loop and never enter it.  (The on-disk existence check and
best-effort re-download of missing jars at 317-328 do not change the set.)
-/
def forgeModulePathSet (win : Bool) (libraries_dir : Str) (lm : LibMap) : List Str :=
  lm.foldl (coreModuleStep win libraries_dir) []

/-- One step of building `module_path_libs` (334-338): insert the
normalization of a module-path entry. -/
def normInsertStep (win : Bool) (acc : List Str) (v : Str) : List Str :=
  insertUnique acc (normalize_path_for_comparison win v)

/-- The `module_path_libs` set of `build_forge_command` (334-338): the
normalized forms of the module-path set. -/
def forgeModulePathLibs (win : Bool) (module_path_set : List Str) : List Str :=
  module_path_set.foldl (normInsertStep win) []

/-- The filesystem as `build_forge_command` observes it: `fileExists` is
`Path::exists`, `readDir` is `fs::read_dir` returning the entry paths in
iteration order (`none` for an `Err`), `isDir` is `Path::is_dir`. -/
structure ForgeFs where
  fileExists : Str → Bool
  readDir : Str → Option (List Str)
  isDir : Str → Bool

/-- Whether a parsed coordinate carries a `natives` classifier (354): such
maven-only entries are not put on the classpath. -/
def isNativeClassifierMaven (maven : MavenName) : Bool :=
  match maven.classifier with
  | some c => strContains c ("natives".data)
  | none => false

/-- The `classpath_entries` of `build_forge_command` (340-364): rule-allowed
libraries contribute their `downloads.artifact.path` (unconditionally — the
source hardcodes `is_native = false` there) or, for maven-only entries
without a natives classifier, their canonical maven path, joined under
`libraries_dir`; `client.jar` is inserted at the front when it exists on
disk. -/
def forgeClasspathEntries (os arch : Str) (win : Bool)
    (libraries_dir instance_minecraft_dir : Str) (fs : ForgeFs)
    (libs : List Library) : List Str :=
  let entries := libs.foldl
    (fun acc lib =>
      if check_rules os arch lib.rules then
        match lib.downloads with
        | some dl =>
          match dl.artifact with
          | some artifact =>
            match artifact.path with
            | some path_str => acc ++ [joinPath win libraries_dir path_str]
            | none => acc
          | none => acc
        | none =>
          match parse_maven_name lib.name with
          | some maven =>
            match maven_path maven with
            | some path_str =>
              if isNativeClassifierMaven maven then acc
              else acc ++ [joinPath win libraries_dir path_str]
            | none => acc
          | none => acc
      else acc)
    []
  let client_path := joinPath win instance_minecraft_dir ("client.jar".data)
  if fs.fileExists client_path then client_path :: entries else entries

/-- The hard classpath blacklist of `build_forge_command` (439-443), in
source order (identical to the launch_logic.rs copy). -/
def forgeClasspathBlacklist : List Str :=
  [("asm".data), ("asm-commons".data), ("asm-tree".data), ("asm-util".data),
   ("asm-analysis".data), ("java-objc-bridge".data), ("jna".data), ("oshi-core".data),
   ("sponge-mixin".data), ("mixin".data), ("jakarta.activation".data),
   ("jakarta.xml.bind".data)]

/-- One step of collecting `module_path_artifacts` (434-438): record the
identity of a module-path library that resolves in the library map. -/
def modulePathArtifactStep (lm : LibMap) (acc : List (Str × Str)) (path : Str) :
    List (Str × Str) :=
  match mapLookup lm path with
  | some maven =>
    if (maven.group, maven.artifact) ∈ acc then acc
    else acc ++ [(maven.group, maven.artifact)]
  | none => acc

/-- The `module_path_artifacts` set of `build_forge_command` (434-438): the
coordinate identities of the module-path libraries that resolve in the
library map. -/
def modulePathArtifacts (lm : LibMap) (module_path_libs : List Str) : List (Str × Str) :=
  module_path_libs.foldl (modulePathArtifactStep lm) []

/-- The `force_include_bootstrap` predicate of the classpath filter
(455-464): the entry's (lowercased) file name contains "bootstraplauncher",
or the library map identifies it as `cpw.mods:bootstraplauncher`. -/
def forceIncludeBootstrap (win : Bool) (lm : LibMap) (entry : Str) : Bool :=
  strContains (toLowerStr (fileNameOf win entry)) ("bootstraplauncher".data) ||
  (match mapLookup lm (normalize_path_for_comparison win entry) with
   | some maven =>
     decide (maven.group = ("cpw.mods".data)) &&
     decide (maven.artifact = ("bootstraplauncher".data))
   | none => false)

/-- The keep-condition of the classpath filter loop for one entry
(`build_forge_command` 444-467, where the blacklist is unconditional —
`loaderIsForge = true`; the launch_logic.rs variant at 813-852 gates the
blacklist on the loader): force-included bootstrap jars always pass;
otherwise the entry must not be on the module path (by normalized path),
must not share a coordinate identity with a module-path library, and must
not match the hard blacklist by file name. -/
def classpathKeepEntry (win loaderIsForge : Bool) (lm : LibMap)
    (module_path_libs : List Str) (module_artifacts : List (Str × Str))
    (entry : Str) : Bool :=
  let norm := normalize_path_for_comparison win entry
  let is_on_module_path := decide (norm ∈ module_path_libs)
  let is_artifact_conflict :=
    match mapLookup lm norm with
    | some maven => decide ((maven.group, maven.artifact) ∈ module_artifacts)
    | none => false
  let file_name := toLowerStr (fileNameOf win entry)
  let is_blacklisted :=
    loaderIsForge && forgeClasspathBlacklist.any (fun b => strContains file_name b)
  forceIncludeBootstrap win lm entry ||
    (!is_on_module_path && !is_artifact_conflict && !is_blacklisted)

/-- One entry of the classpath filter loop (444-468): skip already-seen
paths (`unique_entries.insert`), keep the entry when `classpathKeepEntry`
passes. -/
def classpathFilterStep (win loaderIsForge : Bool) (lm : LibMap)
    (module_path_libs : List Str) (module_artifacts : List (Str × Str))
    (st : List Str × List Str) (entry : Str) : List Str × List Str :=
  if entry ∈ st.1 then st
  else if classpathKeepEntry win loaderIsForge lm module_path_libs
      module_artifacts entry then
    (st.1 ++ [entry], st.2 ++ [entry])
  else (st.1 ++ [entry], st.2)

/-- The classpath filter loop (444-469): deduplicate entries by exact path
and keep those passing `classpathKeepEntry`. -/
def finalClasspathPass1 (win loaderIsForge : Bool) (lm : LibMap)
    (module_path_libs : List Str) (entries : List Str) : List Str :=
  (entries.foldl
    (classpathFilterStep win loaderIsForge lm module_path_libs
      (modulePathArtifacts lm module_path_libs))
    ([], [])).2

/-- One step of the forced bootstraplauncher append (470-481): a
`cpw.mods:bootstraplauncher` entry of the library map pushes its jar path
when no classpath entry already normalizes to the same path. -/
def forgeBootstrapPushStep (win : Bool) (libraries_dir : Str) (cp : List Str)
    (kv : Str × MavenName) : List Str :=
  if decide (kv.2.group = ("cpw.mods".data)) &&
      decide (kv.2.artifact = ("bootstraplauncher".data)) then
    match maven_path kv.2 with
    | some rel =>
      let full := joinPath win libraries_dir rel
      let full_norm := normalize_path_for_comparison win full
      if cp.any (fun p => decide (normalize_path_for_comparison win p = full_norm))
      then cp else cp ++ [full]
    | none => cp
  else cp

/-- The directory scan used for the bootstraplauncher (483-505) and
fmlloader (533-555) fallbacks: if the base directory exists, walk its
entries in order; in the first subdirectory holding a file whose name starts
with `jarStart` and ends with ".jar", return that file's path. -/
def scanSubdirsForJar (fs : ForgeFs) (win : Bool) (base jarStart : Str) : Option Str :=
  if fs.fileExists base then
    match fs.readDir base with
    | some entries =>
      entries.foldl
        (fun acc p =>
          match acc with
          | some _ => acc
          | none =>
            if fs.isDir p then
              match fs.readDir p with
              | some files =>
                files.foldl
                  (fun acc2 fp =>
                    match acc2 with
                    | some _ => acc2
                    | none =>
                      let name := fileNameOf win fp
                      if strStartsWith name jarStart &&
                          strEndsWith name (".jar".data)
                      then some fp else none)
                  none
              | none => none
            else none)
        none
    | none => none
  else none

/-- The scan base `libraries_dir/cpw/mods/bootstraplauncher` (484). -/
def bootstrapScanBase (win : Bool) (libraries_dir : Str) : Str :=
  joinPath win (joinPath win (joinPath win libraries_dir ("cpw".data)) ("mods".data))
    ("bootstraplauncher".data)

/-- The forced-append step shared by the bootstraplauncher scan target
(518-523) and the fmlloader target (568-573): push the target when no
classpath entry already normalizes to the same path.  (The best-effort
download of a missing target does not change the list.) -/
def pushIfAbsentNorm (win : Bool) (cp : List Str) (target : Str) : List Str :=
  let tnorm := normalize_path_for_comparison win target
  if cp.any (fun p => decide (normalize_path_for_comparison win p = tnorm))
  then cp else cp ++ [target]

/-- The `fmlloader_target` of `build_forge_command` (524-555): the jar path
of the first `net.minecraftforge:fmlloader` coordinate in the library map,
falling back to a scan of `libraries_dir/net/minecraftforge/fmlloader`. -/
def forgeFmlloaderTarget (win : Bool) (libraries_dir : Str) (fs : ForgeFs)
    (lm : LibMap) : Option Str :=
  let fromMap :=
    match (lm.find? (fun kv =>
        decide (kv.2.group = ("net.minecraftforge".data)) &&
        decide (kv.2.artifact = ("fmlloader".data)))).map (fun kv => kv.2) with
    | some maven =>
      match maven_path maven with
      | some rel => some (joinPath win libraries_dir rel)
      | none => none
    | none => none
  match fromMap with
  | some target => some target
  | none =>
    scanSubdirsForJar fs win
      (joinPath win (joinPath win (joinPath win libraries_dir ("net".data))
        ("minecraftforge".data)) ("fmlloader".data))
      ("fmlloader-".data)

/-- The final classpath of `build_forge_command` (444-584): the filter pass
over the entries, the forced bootstraplauncher appends from the library map
(470-481), the scanned bootstraplauncher jar (482-523), the fmlloader jar
(524-573), and finally the restriction to paths existing on disk
(`final_classpath_existing`, 574-577). -/
def forgeFinalClasspath (win : Bool) (libraries_dir : Str) (fs : ForgeFs)
    (lm : LibMap) (mp_libs : List Str) (entries : List Str) : List Str :=
  let cp0 := finalClasspathPass1 win true lm mp_libs entries
  let cp1 := lm.foldl (forgeBootstrapPushStep win libraries_dir) cp0
  let cp2 :=
    match scanSubdirsForJar fs win (bootstrapScanBase win libraries_dir)
        ("bootstraplauncher-".data) with
    | some target => pushIfAbsentNorm win cp1 target
    | none => cp1
  let cp3 :=
    match forgeFmlloaderTarget win libraries_dir fs lm with
    | some target => pushIfAbsentNorm win cp2 target
    | none => cp2
  cp3.filter (fun p => fs.fileExists p)

/-- The final module-path set and classpath list `build_forge_command`
writes to the args file (the `-p` value at 329-333 and the `-cp` value at
578-584). -/
structure ForgeAssembleOutcome where
  module_path : List Str
  classpath : List Str

/-- The module-path / classpath computation of
`forge_loader.rs::build_forge_command` (283-584): build the library map, put
exactly the core modules on the module path, filter the classpath entries
against it, force-append the bootstraplauncher jar(s), the scanned
bootstraplauncher jar, and the fmlloader jar, and finally keep only
classpath entries existing on disk (574-577). -/
def build_forge_command_paths (os arch : Str)
    (libraries_dir instance_minecraft_dir : Str) (fs : ForgeFs)
    (info : VersionInfo) : ForgeAssembleOutcome :=
  let win := decide (os = ("windows".data))
  let lm := buildLibraryMap win libraries_dir info.libraries
  let mp := forgeModulePathSet win libraries_dir lm
  { module_path := mp,
    classpath := forgeFinalClasspath win libraries_dir fs lm
      (forgeModulePathLibs win mp)
      (forgeClasspathEntries os arch win libraries_dir
        instance_minecraft_dir fs info.libraries) }

/- ====================================================================
   C1: module-path / classpath coordinate disjointness in the Forge
   command assembly
   ==================================================================== -/

/-- Whether `p` is the jar path of one of the three core Forge modules that
`build_forge_command` puts on the module path (the paths added by
`coreModuleStep`). -/
def isForcedCoreJarPath (win : Bool) (libraries_dir : Str) (lm : LibMap)
    (p : Str) : Bool :=
  lm.any (fun kv =>
    isCoreModuleMaven kv.2 &&
    (match maven_path kv.2 with
     | some rel => decide (p = joinPath win libraries_dir rel)
     | none => false))

/-- Whether `e` is the jar path of a `cpw.mods:bootstraplauncher` coordinate
of the library map (the paths force-appended by `forgeBootstrapPushStep`).
-/
def isForcedBootstrapJarPath (win : Bool) (libraries_dir : Str) (lm : LibMap)
    (e : Str) : Bool :=
  lm.any (fun kv =>
    (decide (kv.2.group = ("cpw.mods".data)) &&
     decide (kv.2.artifact = ("bootstraplauncher".data))) &&
    (match maven_path kv.2 with
     | some rel => decide (e = joinPath win libraries_dir rel)
     | none => false))

/-- A filesystem on which every path exists and directory scans yield
nothing, used to evaluate the Forge assembly at a concrete descriptor. -/
def c1ForgeFs : ForgeFs :=
  { fileExists := fun _ => true, readDir := fun _ => none, isDir := fun _ => false }

/-- A resolved Forge descriptor whose library list carries the
`cpw.mods:bootstraplauncher` coordinate (as every real Forge 1.17+
descriptor does). -/
def c1ForgeInfo : VersionInfo :=
  { id := ("F".data), inherits_from := none, asset_index := none,
    assets := none, downloads := none,
    libraries := [{ name := ("cpw.mods:bootstraplauncher:1.0".data),
                    downloads := none, url := none, natives := none,
                    rules := none }],
    main_class := ("m".data), minecraft_arguments := none, arguments := none,
    version_type := ("release".data), java_version := none, logging := none }

/-- The bootstraplauncher jar path of `c1ForgeInfo` under libraries root "L"
on linux. -/
def c1ForgePath : Str :=
  ("L/cpw/mods/bootstraplauncher/1.0/bootstraplauncher-1.0.jar".data)

/-- Counterexample to C1 as stated: in the Forge command assembly
(`build_forge_command`, reached from `prepare_and_launch` through the
dispatch at launch_logic.rs:259-263), the coordinate identity
`cpw.mods:bootstraplauncher` appears in BOTH the final module-path set and
the final classpath set for the descriptor `c1ForgeInfo` — the core module
is put on the module path (forge_loader.rs:309-316) while its jar is
force-included on the classpath (455-467, 470-481) and survives the
existence filter — so the two sets are not identity-disjoint. -/
theorem c1_forge_disjointness_counterexample :
    c1ForgePath ∈ (build_forge_command_paths ("linux".data) ("x64".data)
        ("L".data) ("M".data) c1ForgeFs c1ForgeInfo).module_path ∧
    c1ForgePath ∈ (build_forge_command_paths ("linux".data) ("x64".data)
        ("L".data) ("M".data) c1ForgeFs c1ForgeInfo).classpath ∧
    (mapLookup (buildLibraryMap false ("L".data) c1ForgeInfo.libraries)
        (normalize_path_for_comparison false c1ForgePath)).map
        (fun maven => (maven.group, maven.artifact)) =
      some (("cpw.mods".data), ("bootstraplauncher".data)) := by
  refine ⟨?_, ?_, ?_⟩ <;> decide

/-- Elements produced by folding `insertUnique` come from the accumulator or
the list. -/
theorem mem_foldl_insertUnique {α : Type} [DecidableEq α] :
    ∀ (l acc : List α) (x : α), x ∈ l.foldl insertUnique acc → x ∈ acc ∨ x ∈ l := by
  intro l
  induction l with
  | nil => intro acc x hx; exact Or.inl hx
  | cons v rest ih =>
    intro acc x hx
    rcases ih (insertUnique acc v) x hx with h | h
    · by_cases hv : v ∈ acc
      · simp only [insertUnique, if_pos hv] at h
        exact Or.inl h
      · simp only [insertUnique, if_neg hv, List.mem_append, List.mem_singleton] at h
        rcases h with h | h
        · exact Or.inl h
        · exact Or.inr (by simp [h])
    · exact Or.inr (by simp [h])

/-- `insertUnique` keeps everything already present. -/
theorem mem_insertUnique_of_mem {α : Type} [DecidableEq α] (acc : List α)
    (x y : α) (h : y ∈ acc) : y ∈ insertUnique acc x := by
  simp only [insertUnique]
  split
  · exact h
  · exact List.mem_append_left _ h

/-- `insertUnique` contains the inserted element. -/
theorem mem_insertUnique_self {α : Type} [DecidableEq α] (acc : List α)
    (x : α) : x ∈ insertUnique acc x := by
  simp only [insertUnique]
  split
  · assumption
  · simp

/-- Folding `normInsertStep` keeps everything already present. -/
theorem foldl_normInsertStep_mono (win : Bool) :
    ∀ (l acc : List Str) (x : Str), x ∈ acc →
      x ∈ l.foldl (normInsertStep win) acc := by
  intro l
  induction l with
  | nil => intro acc x hx; exact hx
  | cons v rest ih =>
    intro acc x hx
    exact ih _ x (mem_insertUnique_of_mem _ _ x hx)

/-- `module_path_libs` contains the normalization of every module-path
entry. -/
theorem mem_forgeModulePathLibs (win : Bool) :
    ∀ (l acc : List Str) (v : Str), v ∈ l →
      normalize_path_for_comparison win v ∈ l.foldl (normInsertStep win) acc := by
  intro l
  induction l with
  | nil => intro acc v hv; simp at hv
  | cons v2 rest ih =>
    intro acc v hv
    rcases List.mem_cons.mp hv with rfl | hv
    · rw [List.foldl_cons]
      exact foldl_normInsertStep_mono win rest _ _ (mem_insertUnique_self _ _)
    · exact ih _ v hv

/-- Elements produced by folding `coreModuleStep` come from the accumulator
or are jar paths of core Forge modules of the folded entries. -/
theorem mem_foldl_coreModuleStep (win : Bool) (libraries_dir : Str) :
    ∀ (l : LibMap) (acc : List Str) (x : Str),
      x ∈ l.foldl (coreModuleStep win libraries_dir) acc →
      x ∈ acc ∨ ∃ kv ∈ l, isCoreModuleMaven kv.2 = true ∧
        ∃ rel, maven_path kv.2 = some rel ∧
          x = joinPath win libraries_dir rel := by
  intro l
  induction l with
  | nil => intro acc x hx; exact Or.inl hx
  | cons kv rest ih =>
    intro acc x hx
    rcases ih (coreModuleStep win libraries_dir acc kv) x hx with h | ⟨kv2, hkv2, hcore, rel, hrel, hx2⟩
    · by_cases hc : isCoreModuleMaven kv.2 = true
      · cases hmp : maven_path kv.2 with
        | some rel =>
          simp only [coreModuleStep, hc, if_true, hmp] at h
          by_cases hmem : joinPath win libraries_dir rel ∈ acc
          · simp only [if_pos hmem] at h
            exact Or.inl h
          · simp only [if_neg hmem, List.mem_append, List.mem_singleton] at h
            rcases h with h | h
            · exact Or.inl h
            · exact Or.inr ⟨kv, by simp, hc, rel, hmp, h⟩
        | none =>
          simp only [coreModuleStep, hc, if_true, hmp] at h
          exact Or.inl h
      · simp only [coreModuleStep, hc, Bool.false_eq_true, if_false] at h
        · exact Or.inl h
    · exact Or.inr ⟨kv2, by simp [hkv2], hcore, rel, hrel, hx2⟩

/-- Folding `modulePathArtifactStep` never loses recorded identities. -/
theorem mem_foldl_modulePathArtifactStep_mono (lm : LibMap) :
    ∀ (l : List Str) (acc : List (Str × Str)) (k : Str × Str), k ∈ acc →
      k ∈ l.foldl (modulePathArtifactStep lm) acc := by
  intro l
  induction l with
  | nil => intro acc k hk; exact hk
  | cons p rest ih =>
    intro acc k hk
    refine ih _ k ?_
    simp only [modulePathArtifactStep]
    cases mapLookup lm p with
    | some maven =>
      by_cases hmem : (maven.group, maven.artifact) ∈ acc
      · simpa [hmem]
      · simp only [hmem, Bool.false_eq_true, if_false]
        exact List.mem_append_left _ hk
    | none => exact hk

/-- Completeness of `modulePathArtifacts`: a module-path library path that
resolves in the library map contributes its coordinate identity. -/
theorem mem_modulePathArtifacts (lm : LibMap) :
    ∀ (l : List Str) (acc : List (Str × Str)) (path : Str) (maven : MavenName),
      path ∈ l → mapLookup lm path = some maven →
      (maven.group, maven.artifact) ∈ l.foldl (modulePathArtifactStep lm) acc := by
  intro l
  induction l with
  | nil => intro acc path maven hpath; simp at hpath
  | cons p rest ih =>
    intro acc path maven hpath hlk
    rcases List.mem_cons.mp hpath with rfl | hpath
    · rw [List.foldl_cons]
      apply mem_foldl_modulePathArtifactStep_mono
      simp only [modulePathArtifactStep, hlk]
      by_cases hmem : (maven.group, maven.artifact) ∈ acc
      · simp [hmem]
      · simp [hmem]
    · exact ih _ path maven hpath hlk

/-- Membership in the output of the classpath filter loop: every kept entry
passes `classpathKeepEntry` (or was already in the accumulator). -/
theorem mem_foldl_classpathFilterStep (win loaderIsForge : Bool) (lm : LibMap)
    (module_path_libs : List Str) (module_artifacts : List (Str × Str)) :
    ∀ (entries : List Str) (st : List Str × List Str) (e : Str),
      e ∈ (entries.foldl
        (classpathFilterStep win loaderIsForge lm module_path_libs module_artifacts)
        st).2 →
      e ∈ st.2 ∨ classpathKeepEntry win loaderIsForge lm module_path_libs
        module_artifacts e = true := by
  intro entries
  induction entries with
  | nil => intro st e he; exact Or.inl he
  | cons entry rest ih =>
    intro st e he
    rcases ih _ e he with h | h
    · simp only [classpathFilterStep] at h
      by_cases hseen : entry ∈ st.1
      · simp only [if_pos hseen] at h
        exact Or.inl h
      · simp only [if_neg hseen] at h
        by_cases hkeep : classpathKeepEntry win loaderIsForge lm module_path_libs
            module_artifacts entry = true
        · simp only [hkeep, if_true] at h
          rcases List.mem_append.mp h with h | h
          · exact Or.inl h
          · rcases List.mem_singleton.mp h with rfl
            exact Or.inr hkeep
        · simp only [hkeep, Bool.false_eq_true, if_false] at h
          exact Or.inl h
    · exact Or.inr h

/-- Membership after the forced bootstraplauncher appends: the entry was
already there or is a forced bootstraplauncher jar path. -/
theorem mem_foldl_forgeBootstrapPushStep (win : Bool) (libraries_dir : Str) :
    ∀ (l : LibMap) (cp : List Str) (e : Str),
      e ∈ l.foldl (forgeBootstrapPushStep win libraries_dir) cp →
      e ∈ cp ∨ ∃ kv ∈ l,
        (decide (kv.2.group = ("cpw.mods".data)) &&
          decide (kv.2.artifact = ("bootstraplauncher".data))) = true ∧
        ∃ rel, maven_path kv.2 = some rel ∧
          e = joinPath win libraries_dir rel := by
  intro l
  induction l with
  | nil => intro cp e he; exact Or.inl he
  | cons kv rest ih =>
    intro cp e he
    rcases ih _ e he with h | ⟨kv2, hkv2, hb, rel, hrel, he2⟩
    · simp only [forgeBootstrapPushStep] at h
      by_cases hbs : (decide (kv.2.group = ("cpw.mods".data)) &&
          decide (kv.2.artifact = ("bootstraplauncher".data))) = true
      · cases hmp : maven_path kv.2 with
        | some rel =>
          simp only [hbs, if_true, hmp] at h
          split at h
          · exact Or.inl h
          · rcases List.mem_append.mp h with h | h
            · exact Or.inl h
            · rcases List.mem_singleton.mp h with rfl
              exact Or.inr ⟨kv, by simp, hbs, rel, hmp, rfl⟩
        | none =>
          simp only [hbs, if_true, hmp] at h
          exact Or.inl h
      · simp only [hbs, Bool.false_eq_true, if_false] at h
        exact Or.inl h
    · exact Or.inr ⟨kv2, by simp [hkv2], hb, rel, hrel, he2⟩

/-- Membership after `pushIfAbsentNorm`: the entry was already there or is
the pushed target. -/
theorem mem_pushIfAbsentNorm (win : Bool) (cp : List Str) (target e : Str)
    (he : e ∈ pushIfAbsentNorm win cp target) : e ∈ cp ∨ e = target := by
  simp only [pushIfAbsentNorm] at he
  split at he
  · exact Or.inl he
  · rcases List.mem_append.mp he with h | h
    · exact Or.inl h
    · exact Or.inr (List.mem_singleton.mp h)

/-- Membership in the final Forge classpath: the entry passed the filter or
was force-appended (bootstraplauncher jar from the library map, the scanned
bootstraplauncher jar, or the fmlloader target). -/
theorem mem_forgeFinalClasspath (win : Bool) (libraries_dir : Str)
    (fs : ForgeFs) (lm : LibMap) (mp_libs : List Str) (entries : List Str)
    (e : Str)
    (he : e ∈ forgeFinalClasspath win libraries_dir fs lm mp_libs entries) :
    classpathKeepEntry win true lm mp_libs
      (modulePathArtifacts lm mp_libs) e = true ∨
    isForcedBootstrapJarPath win libraries_dir lm e = true ∨
    scanSubdirsForJar fs win (bootstrapScanBase win libraries_dir)
      ("bootstraplauncher-".data) = some e ∨
    forgeFmlloaderTarget win libraries_dir fs lm = some e := by
  simp only [forgeFinalClasspath] at he
  have he3 := (List.mem_filter.mp he).1
  have hcp1 : ∀ x : Str,
      x ∈ lm.foldl (forgeBootstrapPushStep win libraries_dir)
        (finalClasspathPass1 win true lm mp_libs entries) →
      classpathKeepEntry win true lm mp_libs
        (modulePathArtifacts lm mp_libs) x = true ∨
      isForcedBootstrapJarPath win libraries_dir lm x = true := by
    intro x hx
    rcases mem_foldl_forgeBootstrapPushStep win libraries_dir lm _ x hx with h | ⟨kv, hkv, hb, rel, hrel, hx2⟩
    · have hx0 : x ∈ (entries.foldl
          (classpathFilterStep win true lm mp_libs (modulePathArtifacts lm mp_libs))
          ([], [])).2 := by
        simpa [finalClasspathPass1] using h
      rcases mem_foldl_classpathFilterStep win true lm mp_libs
          (modulePathArtifacts lm mp_libs) entries ([], []) x hx0 with h2 | h2
      · simp at h2
      · exact Or.inl h2
    · refine Or.inr ?_
      simp only [isForcedBootstrapJarPath, List.any_eq_true]
      exact ⟨kv, hkv, by simp only [hb, Bool.true_and, hrel]; simp [hx2]⟩
  cases hfml : forgeFmlloaderTarget win libraries_dir fs lm with
  | some target =>
    rw [hfml] at he3
    rcases mem_pushIfAbsentNorm win _ target e he3 with he2 | rfl
    · cases hscan : scanSubdirsForJar fs win (bootstrapScanBase win libraries_dir)
          ("bootstraplauncher-".data) with
      | some t2 =>
        rw [hscan] at he2
        rcases mem_pushIfAbsentNorm win _ t2 e he2 with he1 | rfl
        · rcases hcp1 e he1 with h | h
          · exact Or.inl h
          · exact Or.inr (Or.inl h)
        · exact Or.inr (Or.inr (Or.inl rfl))
      | none =>
        rw [hscan] at he2
        rcases hcp1 e he2 with h | h
        · exact Or.inl h
        · exact Or.inr (Or.inl h)
    · exact Or.inr (Or.inr (Or.inr rfl))
  | none =>
    rw [hfml] at he3
    cases hscan : scanSubdirsForJar fs win (bootstrapScanBase win libraries_dir)
        ("bootstraplauncher-".data) with
    | some t2 =>
      rw [hscan] at he3
      rcases mem_pushIfAbsentNorm win _ t2 e he3 with he1 | rfl
      · rcases hcp1 e he1 with h | h
        · exact Or.inl h
        · exact Or.inr (Or.inl h)
      · exact Or.inr (Or.inr (Or.inl rfl))
    | none =>
      rw [hscan] at he3
      rcases hcp1 e he3 with h | h
      · exact Or.inl h
      · exact Or.inr (Or.inl h)

/-- C1 (amended): in the Forge command assembly (`build_forge_command`,
which `prepare_and_launch` dispatches to for Forge launches), every path on
the final module-path set is one of the injected core-module jars, and any
coordinate identity appearing (via the library map) in both the final
module-path set and the final classpath set is carried on the classpath
side by a force-included entry: the bootstraplauncher force-include of the
filter, a force-appended `cpw.mods:bootstraplauncher` jar, the scanned
bootstraplauncher jar, or the fmlloader target. -/
theorem c1_forge_disjointness_except_forced
    (os arch libraries_dir instance_minecraft_dir : Str) (fs : ForgeFs)
    (info : VersionInfo) (p e : Str) (mp_maven cp_maven : MavenName)
    (hp : p ∈ (build_forge_command_paths os arch libraries_dir
        instance_minecraft_dir fs info).module_path)
    (hpm : mapLookup (buildLibraryMap (decide (os = ("windows".data)))
        libraries_dir info.libraries)
        (normalize_path_for_comparison (decide (os = ("windows".data))) p) =
      some mp_maven)
    (he : e ∈ (build_forge_command_paths os arch libraries_dir
        instance_minecraft_dir fs info).classpath)
    (hem : mapLookup (buildLibraryMap (decide (os = ("windows".data)))
        libraries_dir info.libraries)
        (normalize_path_for_comparison (decide (os = ("windows".data))) e) =
      some cp_maven)
    (hgroup : mp_maven.group = cp_maven.group)
    (hartifact : mp_maven.artifact = cp_maven.artifact) :
    isForcedCoreJarPath (decide (os = ("windows".data))) libraries_dir
      (buildLibraryMap (decide (os = ("windows".data))) libraries_dir
        info.libraries) p = true ∧
    (forceIncludeBootstrap (decide (os = ("windows".data)))
        (buildLibraryMap (decide (os = ("windows".data))) libraries_dir
          info.libraries) e = true ∨
     isForcedBootstrapJarPath (decide (os = ("windows".data))) libraries_dir
        (buildLibraryMap (decide (os = ("windows".data))) libraries_dir
          info.libraries) e = true ∨
     scanSubdirsForJar fs (decide (os = ("windows".data)))
        (bootstrapScanBase (decide (os = ("windows".data))) libraries_dir)
        ("bootstraplauncher-".data) = some e ∨
     forgeFmlloaderTarget (decide (os = ("windows".data))) libraries_dir fs
        (buildLibraryMap (decide (os = ("windows".data))) libraries_dir
          info.libraries) = some e) := by
  simp only [build_forge_command_paths] at hp he
  constructor
  · have hp2 : p ∈ (buildLibraryMap (decide (os = ("windows".data)))
        libraries_dir info.libraries).foldl
        (coreModuleStep (decide (os = ("windows".data))) libraries_dir) [] := by
      simpa [forgeModulePathSet] using hp
    rcases mem_foldl_coreModuleStep (decide (os = ("windows".data)))
        libraries_dir _ [] p hp2 with h | ⟨kv, hkv, hcore, rel, hrel, hx⟩
    · simp at h
    · simp only [isForcedCoreJarPath, List.any_eq_true]
      exact ⟨kv, hkv, by simp only [hcore, Bool.true_and, hrel]; simp [hx]⟩
  · have hnormp : normalize_path_for_comparison
        (decide (os = ("windows".data))) p ∈
        forgeModulePathLibs (decide (os = ("windows".data)))
          (forgeModulePathSet (decide (os = ("windows".data))) libraries_dir
            (buildLibraryMap (decide (os = ("windows".data))) libraries_dir
              info.libraries)) := by
      simp only [forgeModulePathLibs]
      exact mem_forgeModulePathLibs (decide (os = ("windows".data))) _ [] p hp
    have hart : (mp_maven.group, mp_maven.artifact) ∈
        modulePathArtifacts
          (buildLibraryMap (decide (os = ("windows".data))) libraries_dir
            info.libraries)
          (forgeModulePathLibs (decide (os = ("windows".data)))
            (forgeModulePathSet (decide (os = ("windows".data))) libraries_dir
              (buildLibraryMap (decide (os = ("windows".data))) libraries_dir
                info.libraries))) := by
      simp only [modulePathArtifacts]
      exact mem_modulePathArtifacts _ _ [] _ mp_maven hnormp hpm
    rcases mem_forgeFinalClasspath (decide (os = ("windows".data)))
        libraries_dir fs _ _ _ e he with hkeep | h | h | h
    · by_cases hfb : forceIncludeBootstrap (decide (os = ("windows".data)))
          (buildLibraryMap (decide (os = ("windows".data))) libraries_dir
            info.libraries) e = true
      · exact Or.inl hfb
      · exfalso
        have hconflict : (cp_maven.group, cp_maven.artifact) ∈
            modulePathArtifacts
              (buildLibraryMap (decide (os = ("windows".data))) libraries_dir
                info.libraries)
              (forgeModulePathLibs (decide (os = ("windows".data)))
                (forgeModulePathSet (decide (os = ("windows".data)))
                  libraries_dir
                  (buildLibraryMap (decide (os = ("windows".data)))
                    libraries_dir info.libraries))) := by
          rw [← hgroup, ← hartifact]
          exact hart
        simp only [classpathKeepEntry, hem] at hkeep
        rw [Bool.or_eq_true] at hkeep
        rcases hkeep with h | h
        · exact hfb h
        · have hdec : decide ((cp_maven.group, cp_maven.artifact) ∈
              modulePathArtifacts
                (buildLibraryMap (decide (os = ("windows".data)))
                  libraries_dir info.libraries)
                (forgeModulePathLibs (decide (os = ("windows".data)))
                  (forgeModulePathSet (decide (os = ("windows".data)))
                    libraries_dir
                    (buildLibraryMap (decide (os = ("windows".data)))
                      libraries_dir info.libraries)))) = true :=
            decide_eq_true hconflict
          simp [hdec] at h
    · exact Or.inr (Or.inl h)
    · exact Or.inr (Or.inr (Or.inl h))
    · exact Or.inr (Or.inr (Or.inr h))

/-- Witness for the amended C1 at the concrete Forge descriptor
`c1ForgeInfo`: the shared `cpw.mods:bootstraplauncher` identity falls under
the forced-inclusion exception. -/
theorem c1_forge_disjointness_except_forced_witness :
    c1ForgePath ∈ (build_forge_command_paths ("linux".data) ("x64".data)
        ("L".data) ("M".data) c1ForgeFs c1ForgeInfo).module_path ∧
    (isForcedCoreJarPath false ("L".data)
        (buildLibraryMap false ("L".data) c1ForgeInfo.libraries)
        c1ForgePath = true ∧
     (forceIncludeBootstrap false
        (buildLibraryMap false ("L".data) c1ForgeInfo.libraries)
        c1ForgePath = true ∨
      isForcedBootstrapJarPath false ("L".data)
        (buildLibraryMap false ("L".data) c1ForgeInfo.libraries)
        c1ForgePath = true ∨
      scanSubdirsForJar c1ForgeFs false (bootstrapScanBase false ("L".data))
        ("bootstraplauncher-".data) = some c1ForgePath ∨
      forgeFmlloaderTarget false ("L".data) c1ForgeFs
        (buildLibraryMap false ("L".data) c1ForgeInfo.libraries) =
        some c1ForgePath)) :=
  ⟨by decide,
   c1_forge_disjointness_except_forced ("linux".data) ("x64".data) ("L".data)
     ("M".data) c1ForgeFs c1ForgeInfo c1ForgePath c1ForgePath
     { group := ("cpw.mods".data), artifact := ("bootstraplauncher".data),
       version := ("1.0".data), classifier := none, ext := ("jar".data) }
     { group := ("cpw.mods".data), artifact := ("bootstraplauncher".data),
       version := ("1.0".data), classifier := none, ext := ("jar".data) }
     (by decide) (by decide) (by decide) (by decide) rfl rfl⟩
